import Mathlib

/-!
Shallow embedding of `comdirect_client/client.py` (ComdirectClient): the
OAuth2 + TAN authentication state machine, the token-refresh operation,
the refresh-scheduler loop body, and the callback dispatcher.

Modelling conventions:
* Server behaviour is a parameter: each HTTP exchange is represented by the
  response the server gives (status code, parsed body, or a transport
  timeout).  The client code never inspects the request it sent when
  handling a response, so abstracting requests away is faithful.
* Python exceptions become an error enumeration `CdError`; `try/except`
  becomes a match on `Except`.  A JSON body that lacks a required key
  (Python `KeyError`, uncaught by the local `except` clauses) is modelled
  by an `Option` field being `none`, producing `CdError.otherError`.
* Wall-clock time is an integer number of seconds passed in explicitly.
  TAN polling advances time by one second per loop iteration
  (`await asyncio.sleep(poll_interval)` with `poll_interval = 1`); the
  polls themselves are instantaneous in the model.
* The asyncio refresh task is modelled structurally: `tasks` is the list of
  every refresh task ever spawned, most recent first; `true` means the task
  is alive (not done, not cancelled).  `self._refresh_task` is the head.
-/

/-- Errors of `comdirect_client/exceptions.py` as raised by `client.py`,
plus `otherError` for uncaught Python exceptions (KeyError etc.) and
`runtimeError` for the `RuntimeError` of the `api` property. -/
inductive CdError where
  | authenticationError (msg : String)
  | networkTimeoutError (msg : String)
  | sessionActivationError (msg : String)
  | tanTimeoutError (msg : String)
  | runtimeError (msg : String)
  | otherError (msg : String)
deriving DecidableEq, Repr

/-- Outcome of a raw httpx exchange: a response with a status code and a
parsed JSON body, or a transport timeout (`httpx.TimeoutException`). -/
inductive HttpOutcome (β : Type) where
  | ok (status : Nat) (body : β)
  | timeout
deriving DecidableEq, Repr

/-- Outcome of a Bravado-mediated exchange: an unmarshalled result, an
`HTTPError` with a status code, or any other exception. -/
inductive BravadoOutcome (β : Type) where
  | ok (v : β)
  | httpError (status : Nat)
  | otherError (msg : String)
deriving DecidableEq, Repr

/-- Body of the step-1 token response; `none` models a body without an
`access_token` key (the resulting KeyError is uncaught in `_step1_...`). -/
structure Step1Body where
  accessToken : Option String
deriving DecidableEq, Repr

/-- Body of the step-5 / refresh token response; `none` fields model
missing keys (KeyError uncaught by the local `except` clauses). -/
structure TokenBody where
  accessToken : Option String
  refreshToken : Option String
  expiresIn : Option Int
deriving DecidableEq, Repr

/-- Parse outcome of the `x-once-authentication-info` response header. -/
inductive HeaderParse where
  | malformed
  | parsed (id typ linkHref : String)
deriving DecidableEq, Repr

/-- Raw step-3 response as the code reads it: the authentication-info
header (`none` = header absent or empty) and the opaque response body,
which `_step3_tan_challenge` never consults. -/
structure Step3Raw where
  header : Option HeaderParse
  body : String
deriving DecidableEq, Repr

instance {ε α : Type} [DecidableEq ε] [DecidableEq α] : DecidableEq (Except ε α)
  | .ok a, .ok b =>
    if h : a = b then isTrue (h ▸ rfl) else isFalse (fun k => h (Except.ok.inj k))
  | .error a, .error b =>
    if h : a = b then isTrue (h ▸ rfl) else isFalse (fun k => h (Except.error.inj k))
  | .ok _, .error _ => isFalse (fun k => Except.noConfusion k)
  | .error _, .ok _ => isFalse (fun k => Except.noConfusion k)

/-- One TAN-poll exchange: a response (status code plus the result of
`response.json().get("status")`, where `.error` is a JSON decode failure
and the inner `Option` is the `status` key) or a transport timeout. -/
inductive PollOutcome where
  | resp (statusCode : Nat) (jsonStatus : Except String (Option String))
  | timeout
deriving DecidableEq, Repr

/-- Payload dictionary passed to the TAN-status callback. -/
structure TanPayload where
  tanType : String
  challengeId : Option String := none
  timeoutSeconds : Option Nat := none
  elapsedSeconds : Option Nat := none
  remainingSeconds : Option Nat := none
deriving DecidableEq, Repr

/-- An observable notification: one invocation of a registered observer. -/
inductive Event where
  | tanStatus (status : String) (payload : TanPayload)
  | reauthRequired (reason : String)
deriving DecidableEq, Repr

/-- Registered observers: `some raises` means an observer is registered
and `raises` tells whether it throws when invoked; `none` means no
observer is registered. -/
structure Callbacks where
  reauth : Option Bool
  tan : Option Bool
deriving DecidableEq, Repr

/-- Mutable client state: the Token Pair, the spawned refresh tasks
(most recent first, `true` = alive), and the persisted token file. -/
structure ClientState where
  accessToken : Option String
  refreshToken : Option String
  tokenExpiry : Option Int
  tasks : List Bool
  storedFile : Option (String × String × Int)
deriving DecidableEq, Repr

/-- httpx `response.raise_for_status()` raises unless the status is 2xx. -/
def is2xx (status : Nat) : Bool :=
  200 ≤ status && status < 300

/-- Invoking a registered observer: it either returns or throws. -/
def callObserver (raises : Bool) : Except String Unit :=
  if raises then .error "observer failure" else .ok ()

/-- `_invoke_tan_status_callback`: if a TAN-status observer is registered
it is invoked inside `try/except Exception`, so its own failure is logged
and swallowed; with no observer only a debug line is logged. -/
def invoke_tan_status_callback (cbs : Callbacks) (status : String)
    (payload : TanPayload) : List Event :=
  match cbs.tan with
  | some raises =>
    match callObserver raises with
    | .ok _ => [.tanStatus status payload]
    | .error _ => [.tanStatus status payload]
  | none => []

/-- `_clear_tokens`: null out the Token Pair and cancel the current
refresh task if it is not done. -/
def clear_tokens (s : ClientState) : ClientState :=
  { s with
    accessToken := none
    refreshToken := none
    tokenExpiry := none
    tasks := match s.tasks with
      | [] => []
      | _ :: rest => false :: rest }

/-- `_invoke_reauth_callback`: clear tokens first, then invoke the reauth
observer (if registered) inside `try/except Exception`, swallowing its
failure. -/
def invoke_reauth_callback (cbs : Callbacks) (reason : String)
    (s : ClientState) : ClientState × List Event :=
  let s' := clear_tokens s
  match cbs.reauth with
  | some raises =>
    match callObserver raises with
    | .ok _ => (s', [.reauthRequired reason])
    | .error _ => (s', [.reauthRequired reason])
  | none => (s', [])

/-- `_start_refresh_task`: cancel the current task if it is alive, then
spawn a fresh task which becomes the current one. -/
def start_refresh_task (s : ClientState) : ClientState :=
  { s with
    tasks := true :: (match s.tasks with
      | [] => []
      | _ :: rest => false :: rest) }

/-- `_save_tokens_to_storage`: persist the triple only when all three
parts are present (storage failures are logged and swallowed). -/
def save_tokens_to_storage (s : ClientState) : ClientState :=
  match s.accessToken, s.refreshToken, s.tokenExpiry with
  | some a, some r, some e => { s with storedFile := some (a, r, e) }
  | _, _, _ => s

/-- `is_authenticated`: access token present AND expiry present. -/
def is_authenticated (s : ClientState) : Bool :=
  s.accessToken.isSome && s.tokenExpiry.isSome

/-- The `api` property: raise `RuntimeError` unless authenticated,
otherwise hand out the Bravado client (abstracted to `Unit`). -/
def api (s : ClientState) : Except CdError Unit :=
  if ¬ is_authenticated s then
    .error (.runtimeError
      "Client not authenticated. Call authenticate() first before accessing API.")
  else .ok ()

/-- `_step1_password_credentials`: 401 → AuthenticationError; transport
timeout → NetworkTimeoutError; other non-2xx (raise_for_status) →
AuthenticationError; missing `access_token` key → uncaught KeyError. -/
def step1_password_credentials (resp : HttpOutcome Step1Body) :
    Except CdError String :=
  match resp with
  | .timeout => .error (.networkTimeoutError "Authentication request timed out")
  | .ok status body =>
    if status == 401 then .error (.authenticationError "Invalid credentials")
    else if ¬ is2xx status then
      .error (.authenticationError "Authentication failed: HTTP error")
    else
      match body.accessToken with
      | none => .error (.otherError "KeyError: access_token")
      | some tok => .ok tok

/-- `_step2_session_status`: the Bravado call returns the session list;
an empty list raises AuthenticationError (rewrapped by the generic
`except Exception`); HTTPError 401 and every other failure also become
AuthenticationError. -/
def step2_session_status (resp : BravadoOutcome (List String)) :
    Except CdError String :=
  match resp with
  | .ok sessions =>
    match sessions with
    | [] => .error (.authenticationError
        "Session retrieval failed: No session data returned")
    | identifier :: _ => .ok identifier
  | .httpError status =>
    if status == 401 then
      .error (.authenticationError "Session retrieval failed: Invalid token")
    else .error (.authenticationError "Session retrieval failed: HTTP error")
  | .otherError m =>
    .error (.authenticationError ("Session retrieval failed: " ++ m))

/-- `_step3_tan_challenge`: challenge id, TAN type and poll URL come only
from the `x-once-authentication-info` response header; a missing or empty
header raises AuthenticationError (rewrapped by `except Exception`), as
does a header that fails to parse; on success a `requested` TAN-status
notification is emitted. -/
def step3_tan_challenge (cbs : Callbacks) (resp : BravadoOutcome Step3Raw) :
    Except CdError (String × String × String) × List Event :=
  match resp with
  | .ok raw =>
    match raw.header with
    | none =>
      (.error (.authenticationError
        "TAN challenge creation failed: Missing x-once-authentication-info header"),
       [])
    | some .malformed =>
      (.error (.authenticationError
        "TAN challenge creation failed: header JSON error"), [])
    | some (.parsed id typ linkHref) =>
      (.ok (id, typ, linkHref),
       invoke_tan_status_callback cbs "requested"
         { tanType := typ, challengeId := some id, timeoutSeconds := some 60 })
  | .httpError _ =>
    (.error (.authenticationError "TAN challenge creation failed: HTTP error"), [])
  | .otherError m =>
    (.error (.authenticationError ("TAN challenge creation failed: " ++ m)), [])

/-- Result of the step-4 polling routine: its outcome, the notifications
emitted inside the loop, and the elapsed times (in seconds since the step
started) at which poll requests were issued.  Each loop iteration first
sleeps one second, so the k-th poll is preceded by k one-second sleeps. -/
structure Step4Result where
  result : Except CdError Unit
  events : List Event
  pollTimes : List Nat
deriving DecidableEq, Repr

/-- The `while time.time() - start_time < timeout` loop of
`_step4_poll_tan_approval`, with `timeout = 60` and `poll_interval = 1`.
`fuel` is the number of seconds left in the budget (60 − elapsed); each
iteration sleeps one second and then issues one poll, whose response is
`responses elapsed` for the new elapsed time.  A transport timeout or a
non-200 response is logged and retried; 200 with `AUTHENTICATED` returns
after an `approved` notification; 200 with `PENDING` continues (with a
progress notification every 10 elapsed seconds); any other status raises
AuthenticationError; an undecodable 200 body raises uncaught.  When fuel
runs out, a `timeout` notification is emitted and TANTimeoutError is
raised. -/
def poll_tan_loop (cbs : Callbacks) (tanType : String)
    (responses : Nat → PollOutcome) : Nat → Nat → Step4Result
  | 0, _ =>
    { result := .error (.tanTimeoutError "TAN approval timed out after 60 seconds")
      events := invoke_tan_status_callback cbs "timeout"
        { tanType := tanType, timeoutSeconds := some 60 }
      pollTimes := [] }
  | fuel + 1, elapsedBefore =>
    let elapsed := elapsedBefore + 1
    let remaining := 60 - elapsed
    match responses elapsed with
    | .timeout =>
      let r := poll_tan_loop cbs tanType responses fuel elapsed
      { r with pollTimes := elapsed :: r.pollTimes }
    | .resp statusCode jsonStatus =>
      if statusCode == 200 then
        match jsonStatus with
        | .error m =>
          { result := .error (.otherError ("JSON decode failed: " ++ m))
            events := []
            pollTimes := [elapsed] }
        | .ok st =>
          if st == some "AUTHENTICATED" then
            { result := .ok ()
              events := invoke_tan_status_callback cbs "approved"
                { tanType := tanType, elapsedSeconds := some elapsed }
              pollTimes := [elapsed] }
          else if st == some "PENDING" then
            let evs :=
              if elapsed % 10 == 0 && decide (0 < elapsed) then
                invoke_tan_status_callback cbs "pending"
                  { tanType := tanType, timeoutSeconds := some 60,
                    elapsedSeconds := some elapsed,
                    remainingSeconds := some remaining }
              else []
            let r := poll_tan_loop cbs tanType responses fuel elapsed
            { result := r.result
              events := evs ++ r.events
              pollTimes := elapsed :: r.pollTimes }
          else
            { result := .error (.authenticationError "Unexpected TAN status")
              events := []
              pollTimes := [elapsed] }
      else
        let r := poll_tan_loop cbs tanType responses fuel elapsed
        { r with pollTimes := elapsed :: r.pollTimes }

/-- `_step4_poll_tan_approval`: emit the initial `pending` notification
(elapsed 0), then run the poll loop with the full 60-second budget. -/
def step4_poll_tan_approval (cbs : Callbacks) (tanType : String)
    (responses : Nat → PollOutcome) : Step4Result :=
  let initEvents := invoke_tan_status_callback cbs "pending"
    { tanType := tanType, timeoutSeconds := some 60, elapsedSeconds := some 0 }
  let r := poll_tan_loop cbs tanType responses 60 0
  { r with events := initEvents ++ r.events }

/-- `_step4b_activate_session`: HTTPError 422 → SessionActivationError
(incorrect header format); any other failure → SessionActivationError. -/
def step4b_activate_session (resp : BravadoOutcome Unit) : Except CdError Unit :=
  match resp with
  | .ok _ => .ok ()
  | .httpError status =>
    if status == 422 then
      .error (.sessionActivationError
        "Session activation failed: incorrect header format")
    else .error (.sessionActivationError "Session activation failed: HTTP error")
  | .otherError m =>
    .error (.sessionActivationError ("Session activation failed: " ++ m))

/-- `_step5_secondary_token`: non-2xx → AuthenticationError, transport
timeout → NetworkTimeoutError; on 2xx the three fields are assigned one
after the other (a missing key aborts mid-assignment, uncaught), the
expiry becomes `now + expires_in`, and the tokens are persisted. -/
def step5_secondary_token (now : Int) (resp : HttpOutcome TokenBody)
    (s : ClientState) : Except CdError Unit × ClientState :=
  match resp with
  | .timeout => (.error (.networkTimeoutError "Token exchange timed out"), s)
  | .ok status body =>
    if ¬ is2xx status then
      (.error (.authenticationError "Token exchange failed: HTTP error"), s)
    else
      match body.accessToken with
      | none => (.error (.otherError "KeyError: access_token"), s)
      | some a =>
        let s1 := { s with accessToken := some a }
        match body.refreshToken with
        | none => (.error (.otherError "KeyError: refresh_token"), s1)
        | some r =>
          let s2 := { s1 with refreshToken := some r }
          match body.expiresIn with
          | none => (.error (.otherError "KeyError: expires_in"), s2)
          | some ein =>
            let s3 := { s2 with tokenExpiry := some (now + ein) }
            (.ok (), save_tokens_to_storage s3)

/-- The server's responses to the exchanges of one `authenticate()` run.
The client's handling of each response never depends on the request
payload, so the behaviour is one response per step (and one per poll). -/
structure ServerBehavior where
  step1Resp : HttpOutcome Step1Body
  step2Resp : BravadoOutcome (List String)
  step3Resp : BravadoOutcome Step3Raw
  pollResponses : Nat → PollOutcome
  step4bResp : BravadoOutcome Unit
  step5Resp : HttpOutcome TokenBody

/-- Result of one `authenticate()` call: the propagated outcome, the
final client state, and the notifications emitted along the way. -/
structure AuthResult where
  result : Except CdError Unit
  state : ClientState
  events : List Event
deriving DecidableEq, Repr

/-- The `try` body of `authenticate()`: steps 1–5 strictly in order, each
one's output feeding the next, then `_start_refresh_task` on success. -/
def authenticate_run (cbs : Callbacks) (now : Int) (srv : ServerBehavior)
    (s : ClientState) : AuthResult :=
  match step1_password_credentials srv.step1Resp with
  | .error e => ⟨.error e, s, []⟩
  | .ok _initialToken =>
    match step2_session_status srv.step2Resp with
    | .error e => ⟨.error e, s, []⟩
    | .ok _sessionUuid =>
      match step3_tan_challenge cbs srv.step3Resp with
      | (.error e, evs3) => ⟨.error e, s, evs3⟩
      | (.ok (_challengeId, tanType, _pollUrl), evs3) =>
        let r4 := step4_poll_tan_approval cbs tanType srv.pollResponses
        match r4.result with
        | .error e => ⟨.error e, s, evs3 ++ r4.events⟩
        | .ok _ =>
          match step4b_activate_session srv.step4bResp with
          | .error e => ⟨.error e, s, evs3 ++ r4.events⟩
          | .ok _ =>
            match step5_secondary_token now srv.step5Resp s with
            | (.error e, s5) => ⟨.error e, s5, evs3 ++ r4.events⟩
            | (.ok _, s5) => ⟨.ok (), start_refresh_task s5, evs3 ++ r4.events⟩

/-- `authenticate()`: run the steps; `except Exception` clears all tokens
and re-raises, so every failure leaves the cleared state behind. -/
def authenticate (cbs : Callbacks) (now : Int) (srv : ServerBehavior)
    (s : ClientState) : AuthResult :=
  let r := authenticate_run cbs now srv s
  match r.result with
  | .ok _ => r
  | .error e => ⟨.error e, clear_tokens r.state, r.events⟩

/-- Result of one `refresh_token()` call: `.ok b` is the returned
boolean, `.error` an uncaught exception (missing key on a 2xx body). -/
structure RefreshResult where
  result : Except CdError Bool
  state : ClientState
  events : List Event
deriving DecidableEq, Repr

/-- `refresh_token()`: no refresh token → return False immediately;
401 → `_invoke_reauth_callback("token_refresh_failed")` and return False;
transport timeout or other non-2xx → return False untouched; 2xx →
overwrite the Token Pair field by field, persist, return True. -/
def refresh_token (cbs : Callbacks) (now : Int) (resp : HttpOutcome TokenBody)
    (s : ClientState) : RefreshResult :=
  match s.refreshToken with
  | none => { result := .ok false, state := s, events := [] }
  | some _ =>
    match resp with
    | .timeout => { result := .ok false, state := s, events := [] }
    | .ok status body =>
      if status == 401 then
        let (s', evs) := invoke_reauth_callback cbs "token_refresh_failed" s
        { result := .ok false, state := s', events := evs }
      else if ¬ is2xx status then
        { result := .ok false, state := s, events := [] }
      else
        match body.accessToken with
        | none =>
          { result := .error (.otherError "KeyError: access_token")
            state := s, events := [] }
        | some a =>
          let s1 := { s with accessToken := some a }
          match body.refreshToken with
          | none =>
            { result := .error (.otherError "KeyError: refresh_token")
              state := s1, events := [] }
          | some r =>
            let s2 := { s1 with refreshToken := some r }
            match body.expiresIn with
            | none =>
              { result := .error (.otherError "KeyError: expires_in")
                state := s2, events := [] }
            | some ein =>
              let s3 := save_tokens_to_storage { s2 with tokenExpiry := some (now + ein) }
              { result := .ok true, state := s3, events := [] }

/-- Whether one iteration of `_token_refresh_loop` continues looping or
terminates (breaks out of the `while True`). -/
inductive LoopStep where
  | continues (state : ClientState) (events : List Event)
  | terminates (state : ClientState) (events : List Event)
deriving DecidableEq, Repr

/-- One iteration of the `_token_refresh_loop` body once it has woken:
no expiry → sleep 10 s and continue; otherwise run `refresh_token()`;
on False invoke `_invoke_reauth_callback("automatic_refresh_failed")`
and break; on an uncaught exception, `except Exception` sleeps 10 s
and continues. -/
def token_refresh_loop_body (cbs : Callbacks) (now : Int)
    (resp : HttpOutcome TokenBody) (s : ClientState) : LoopStep :=
  match s.tokenExpiry with
  | none => .continues s []
  | some _ =>
    let r := refresh_token cbs now resp s
    match r.result with
    | .ok true => .continues r.state r.events
    | .ok false =>
      let (s', evs) := invoke_reauth_callback cbs "automatic_refresh_failed" r.state
      .terminates s' (r.events ++ evs)
    | .error _ => .continues r.state r.events

/-- Events whose status string marks a TAN-status notification `st`. -/
def isTanEvent (st : String) : Event → Bool
  | .tanStatus s _ => s == st
  | _ => false

/-- Events that are a reauth notification with the given reason. -/
def isReauthEvent (reason : String) : Event → Bool
  | .reauthRequired r => r == reason
  | _ => false

/-- A benign poll response: one the loop retries or keeps polling on —
a transport timeout, a non-200 response, or 200 with status `PENDING`.
These are exactly the responses that never terminate the loop early. -/
def benignPoll : PollOutcome → Bool
  | .timeout => true
  | .resp statusCode jsonStatus =>
    if statusCode == 200 then decide (jsonStatus = .ok (some "PENDING")) else true

/-- Only the most recently spawned refresh task may be alive. -/
def onlyHeadAlive (l : List Bool) : Bool :=
  l.tail.all (fun b => b == false)

/-- Number of alive refresh tasks. -/
def aliveCount (l : List Bool) : Nat :=
  l.count true

/-- Fixture: both observers registered, neither raises. -/
def cbs0 : Callbacks := ⟨some false, some false⟩

/-- Fixture: a client holding a complete Token Pair from a previous
session, with a live refresh task and a persisted file. -/
def sFull : ClientState :=
  ⟨some "oldA", some "oldR", some 50, [true], some ("oldA", "oldR", 50)⟩

/-- Fixture: the empty state a fresh client starts in. -/
def sEmpty : ClientState := ⟨none, none, none, [], none⟩

/-- Fixture: poll responses `PENDING, PENDING, AUTHENTICATED`. -/
def pollSeqC5 : Nat → PollOutcome := fun n =>
  if n ≤ 2 then .resp 200 (.ok (some "PENDING")) else .resp 200 (.ok (some "AUTHENTICATED"))

/-- Fixture: every poll answers 200 `PENDING`. -/
def pollAllPending : Nat → PollOutcome := fun _ => .resp 200 (.ok (some "PENDING"))

/-- Fixture: a server that lets the whole flow succeed with
`expires_in = 600`. -/
def srvOkPos : ServerBehavior :=
  { step1Resp := .ok 200 ⟨some "tok1"⟩
    step2Resp := .ok ["sess-uuid"]
    step3Resp := .ok ⟨some (.parsed "cid" "P_TAN_PUSH" "/poll"), "ignored-body"⟩
    pollResponses := fun _ => .resp 200 (.ok (some "AUTHENTICATED"))
    step4bResp := .ok ()
    step5Resp := .ok 200 ⟨some "A2", some "R2", some 600⟩ }

/-- Fixture: same flow but the step-5 response says `expires_in = 0`. -/
def srvOkZero : ServerBehavior :=
  { srvOkPos with step5Resp := .ok 200 ⟨some "A2", some "R2", some 0⟩ }

/-- Fixture: step 1 answers 401 (bad credentials). -/
def srvBadCreds : ServerBehavior :=
  { srvOkPos with step1Resp := .ok 401 ⟨none⟩ }

/-- Fixture: the step-3 response carries no authentication-info header. -/
def srvNoHeader : ServerBehavior :=
  { srvOkPos with step3Resp := .ok ⟨none, "some-body"⟩ }

/-- Fixture: the TAN poll never resolves (always `PENDING`). -/
def srvPendingForever : ServerBehavior :=
  { srvOkPos with pollResponses := pollAllPending }

/-- Fixture: a step-3 response lacking the authentication-info header. -/
def rawNoHeader : Step3Raw := ⟨none, "some-body"⟩

/-- Fixture: same missing header, different body. -/
def rawNoHeaderAlt : Step3Raw := ⟨none, "another-body"⟩

lemma invoke_tan_registered (x : Option Bool) (b : Bool) (st : String)
    (p : TanPayload) :
    invoke_tan_status_callback ⟨x, some b⟩ st p = [.tanStatus st p] := by
  cases b <;> rfl

lemma invoke_reauth_registered (x : Option Bool) (b : Bool) (reason : String)
    (s : ClientState) :
    invoke_reauth_callback ⟨some b, x⟩ reason s =
      (clear_tokens s, [.reauthRequired reason]) := by
  cases b <;> rfl

lemma clear_tokens_fields (s : ClientState) :
    (clear_tokens s).accessToken = none ∧ (clear_tokens s).refreshToken = none ∧
    (clear_tokens s).tokenExpiry = none :=
  ⟨rfl, rfl, rfl⟩

/-- Claim C9: whenever `is_authenticated()` is false — equivalently the
access token or the expiry is absent — reading the `api` property raises
`RuntimeError` rather than returning the Bravado client. -/
theorem api_blocked_when_unauthenticated (s : ClientState)
    (h : is_authenticated s = false) :
    (s.accessToken = none ∨ s.tokenExpiry = none) ∧
    api s = .error (.runtimeError
      "Client not authenticated. Call authenticate() first before accessing API.") := by
  constructor
  · cases ha : s.accessToken with
    | none => exact .inl rfl
    | some a =>
      cases he : s.tokenExpiry with
      | none => exact .inr rfl
      | some t => rw [is_authenticated, ha, he] at h; simp at h
  · simp [api, h]

theorem api_blocked_when_unauthenticated_w :
    is_authenticated sEmpty = false ∧
    (sEmpty.accessToken = none ∨ sEmpty.tokenExpiry = none) ∧
    api sEmpty = .error (.runtimeError
      "Client not authenticated. Call authenticate() first before accessing API.") :=
  ⟨rfl, api_blocked_when_unauthenticated sEmpty rfl⟩

/-- Claim C4: a refresh attempt that hits a transport timeout or any
non-2xx status other than 401 returns `False` and changes nothing: the
tokens, the expiry, the persisted file and the task list are exactly as
before, and no notification is emitted. -/
theorem refresh_transient_preserves_state (cbs : Callbacks) (now : Int)
    (resp : HttpOutcome TokenBody) (s : ClientState)
    (h : resp = .timeout ∨
         ∃ st body, resp = .ok st body ∧ st ≠ 401 ∧ is2xx st = false) :
    refresh_token cbs now resp s = ⟨.ok false, s, []⟩ := by
  rcases h with h | ⟨st, body, hr, h401, h2xx⟩
  · subst h
    cases hrt : s.refreshToken <;> simp [refresh_token, hrt]
  · subst hr
    have h401b : (st == 401) = false := by
      simp only [beq_eq_false_iff_ne, ne_eq]; exact h401
    cases hrt : s.refreshToken <;> simp [refresh_token, hrt, h401b, h2xx]

theorem refresh_transient_preserves_state_w :
    ((HttpOutcome.ok 500 (⟨some "x", some "y", some 1⟩ : TokenBody)) = .timeout ∨
      ∃ st body, (HttpOutcome.ok 500 (⟨some "x", some "y", some 1⟩ : TokenBody)) = .ok st body ∧
        st ≠ 401 ∧ is2xx st = false) ∧
    refresh_token cbs0 7 (.ok 500 ⟨some "x", some "y", some 1⟩) sFull =
      ⟨.ok false, sFull, []⟩ :=
  ⟨.inr ⟨500, _, rfl, by decide, by decide⟩,
   refresh_transient_preserves_state cbs0 7 _ sFull
     (.inr ⟨500, _, rfl, by decide, by decide⟩)⟩

/-- Claim C3 counterexample: on a 401 from the refresh endpoint the call
does return `False` and dispatches exactly one
`reauth_required("token_refresh_failed")`, but — contrary to the claim —
`refresh_token()` does clear the stored Token Pair: the dispatch helper
`_invoke_reauth_callback` calls `_clear_tokens()` first, so the manual
caller no longer holds the refresh token afterwards. -/
theorem refresh_401_keeps_tokens_cex :
    sFull.refreshToken = some "oldR" ∧
    (refresh_token cbs0 0 (.ok 401 ⟨none, none, none⟩) sFull).result = .ok false ∧
    (refresh_token cbs0 0 (.ok 401 ⟨none, none, none⟩) sFull).events =
      [.reauthRequired "token_refresh_failed"] ∧
    (refresh_token cbs0 0 (.ok 401 ⟨none, none, none⟩) sFull).state.refreshToken = none := by
  decide

/-- Claim C3 (amended): a direct `refresh_token()` call answered with 401
returns `False`, dispatches exactly one reauth notification with reason
`token_refresh_failed`, and clears the whole stored Token Pair (access
token, refresh token and expiry all become `None`, and the current
refresh task is cancelled) as part of dispatching that notification. -/
theorem refresh_401_notifies_and_clears (cbs : Callbacks) (now : Int)
    (body : TokenBody) (s : ClientState) (rt : String) (raises : Bool)
    (hrt : s.refreshToken = some rt) (hcb : cbs.reauth = some raises) :
    (refresh_token cbs now (.ok 401 body) s).result = .ok false ∧
    (refresh_token cbs now (.ok 401 body) s).events.countP
      (isReauthEvent "token_refresh_failed") = 1 ∧
    (refresh_token cbs now (.ok 401 body) s).state.accessToken = none ∧
    (refresh_token cbs now (.ok 401 body) s).state.refreshToken = none ∧
    (refresh_token cbs now (.ok 401 body) s).state.tokenExpiry = none := by
  obtain ⟨cr, ct⟩ := cbs
  simp only at hcb
  subst hcb
  have hredux : refresh_token ⟨some raises, ct⟩ now (.ok 401 body) s =
      ⟨.ok false, clear_tokens s, [.reauthRequired "token_refresh_failed"]⟩ := by
    simp [refresh_token, hrt, invoke_reauth_registered]
  rw [hredux]
  exact ⟨rfl, rfl, rfl, rfl, rfl⟩

theorem refresh_401_notifies_and_clears_w :
    sFull.refreshToken = some "oldR" ∧ cbs0.reauth = some false ∧
    ((refresh_token cbs0 3 (.ok 401 ⟨none, none, none⟩) sFull).result = .ok false ∧
     (refresh_token cbs0 3 (.ok 401 ⟨none, none, none⟩) sFull).events.countP
       (isReauthEvent "token_refresh_failed") = 1 ∧
     (refresh_token cbs0 3 (.ok 401 ⟨none, none, none⟩) sFull).state.accessToken = none ∧
     (refresh_token cbs0 3 (.ok 401 ⟨none, none, none⟩) sFull).state.refreshToken = none ∧
     (refresh_token cbs0 3 (.ok 401 ⟨none, none, none⟩) sFull).state.tokenExpiry = none) :=
  ⟨rfl, rfl, refresh_401_notifies_and_clears cbs0 3 ⟨none, none, none⟩ sFull "oldR" false rfl rfl⟩

/-- Claim C5: for the poll sequence `PENDING, PENDING, AUTHENTICATED`
(all HTTP 200), step 4 returns successfully, the poll requests go out at
elapsed times 1, 2 and 3 seconds — one one-second sleep before each, so
two seconds separate the first and the third request — and exactly one
`tan_status="approved"` notification is emitted. -/
theorem tan_poll_approval_scenario :
    (step4_poll_tan_approval cbs0 "P_TAN_PUSH" pollSeqC5).result = .ok () ∧
    (step4_poll_tan_approval cbs0 "P_TAN_PUSH" pollSeqC5).pollTimes = [1, 2, 3] ∧
    (step4_poll_tan_approval cbs0 "P_TAN_PUSH" pollSeqC5).events.countP
      (isTanEvent "approved") = 1 := by
  decide

/-- Claim C2 counterexample: a fully successful `authenticate()` run
whose step-5 response says `expires_in = 0` leaves the expiry equal to
the time of the exchange (100), which is not strictly in the future, so
"expiry ... is strictly in the future" does not hold of every successful
run. -/
theorem authenticate_success_zero_expiry_cex :
    (authenticate cbs0 100 srvOkZero sFull).result = .ok () ∧
    (authenticate cbs0 100 srvOkZero sFull).state.tokenExpiry = some 100 ∧
    ¬ ((100 : Int) < 100) := by
  decide

/-- Claim C6 counterexample: a run in which no poll response ever carries
`AUTHENTICATED` but the first poll answers 200 with the unexpected status
`FAILED`: the step raises AuthenticationError, not TANTimeoutError, and
emits no `timeout` notification, so the claim's conclusion fails for a
run satisfying its premise. -/
theorem tan_poll_unexpected_status_cex :
    (step4_poll_tan_approval cbs0 "P_TAN_PUSH"
      (fun _ => .resp 200 (.ok (some "FAILED")))).result =
      .error (.authenticationError "Unexpected TAN status") ∧
    (step4_poll_tan_approval cbs0 "P_TAN_PUSH"
      (fun _ => .resp 200 (.ok (some "FAILED")))).events.countP
      (isTanEvent "timeout") = 0 := by
  decide

/-- Claim C1: whichever step of `authenticate()` raises, after the
exception propagates the access token, refresh token and expiry are all
`None` — even if a complete pair existed before the call — because the
`except Exception` handler runs `_clear_tokens()` before re-raising. -/
theorem authenticate_failure_clears_tokens (cbs : Callbacks) (now : Int)
    (srv : ServerBehavior) (s : ClientState) (e : CdError)
    (h : (authenticate cbs now srv s).result = .error e) :
    (authenticate cbs now srv s).state.accessToken = none ∧
    (authenticate cbs now srv s).state.refreshToken = none ∧
    (authenticate cbs now srv s).state.tokenExpiry = none := by
  simp only [authenticate] at h ⊢
  cases hr : (authenticate_run cbs now srv s).result with
  | ok v => simp only [hr] at h; exact Except.noConfusion h
  | error e' => simp only [hr]; exact ⟨rfl, rfl, rfl⟩

theorem authenticate_failure_clears_tokens_w :
    (authenticate cbs0 0 srvBadCreds sFull).result =
      .error (.authenticationError "Invalid credentials") ∧
    sFull.accessToken = some "oldA" ∧ sFull.refreshToken = some "oldR" ∧
    ((authenticate cbs0 0 srvBadCreds sFull).state.accessToken = none ∧
     (authenticate cbs0 0 srvBadCreds sFull).state.refreshToken = none ∧
     (authenticate cbs0 0 srvBadCreds sFull).state.tokenExpiry = none) :=
  ⟨by decide, rfl, rfl,
   authenticate_failure_clears_tokens cbs0 0 srvBadCreds sFull
     (.authenticationError "Invalid credentials") (by decide)⟩

lemma step5_ok_shape (now : Int) (resp : HttpOutcome TokenBody) (s s5 : ClientState)
    (h : step5_secondary_token now resp s = (.ok (), s5)) :
    ∃ st body a r ein,
      resp = .ok st body ∧ body.accessToken = some a ∧ body.refreshToken = some r ∧
      body.expiresIn = some ein ∧
      s5.accessToken = some a ∧ s5.refreshToken = some r ∧
      s5.tokenExpiry = some (now + ein) ∧ s5.tasks = s.tasks := by
  cases resp with
  | timeout => simp [step5_secondary_token] at h
  | ok st body =>
    by_cases h2 : is2xx st
    · cases ha : body.accessToken with
      | none => simp [step5_secondary_token, h2, ha] at h
      | some a =>
        cases hr : body.refreshToken with
        | none => simp [step5_secondary_token, h2, ha, hr] at h
        | some r =>
          cases he : body.expiresIn with
          | none => simp [step5_secondary_token, h2, ha, hr, he] at h
          | some ein =>
            simp only [step5_secondary_token, h2, ha, hr, he, not_true_eq_false,
              if_false, save_tokens_to_storage, Prod.mk.injEq, true_and] at h
            exact ⟨st, body, a, r, ein, rfl, ha, hr, he, by rw [← h], by rw [← h],
              by rw [← h], by rw [← h]⟩
    · simp [step5_secondary_token, h2] at h

lemma authenticate_run_ok_shape (cbs : Callbacks) (now : Int) (srv : ServerBehavior)
    (s : ClientState) (h : (authenticate_run cbs now srv s).result = .ok ()) :
    ∃ s5, step5_secondary_token now srv.step5Resp s = (.ok (), s5) ∧
      (authenticate_run cbs now srv s).state = start_refresh_task s5 := by
  simp only [authenticate_run] at h ⊢
  cases h1 : step1_password_credentials srv.step1Resp with
  | error e => rw [h1] at h; exact Except.noConfusion h
  | ok tok =>
    simp only [h1] at h ⊢
    cases h2 : step2_session_status srv.step2Resp with
    | error e => rw [h2] at h; exact Except.noConfusion h
    | ok u =>
      simp only [h2] at h ⊢
      cases h3 : step3_tan_challenge cbs srv.step3Resp with
      | mk res3 evs3 =>
        cases res3 with
        | error e => rw [h3] at h; exact Except.noConfusion h
        | ok triple =>
          obtain ⟨cid, typ, purl⟩ := triple
          simp only [h3] at h ⊢
          cases h4 : (step4_poll_tan_approval cbs typ srv.pollResponses).result with
          | error e => rw [h4] at h; exact Except.noConfusion h
          | ok v4 =>
            simp only [h4] at h ⊢
            cases h4b : step4b_activate_session srv.step4bResp with
            | error e => rw [h4b] at h; exact Except.noConfusion h
            | ok v4b =>
              simp only [h4b] at h ⊢
              cases h5 : step5_secondary_token now srv.step5Resp s with
              | mk res5 s5 =>
                cases res5 with
                | error e => rw [h5] at h; exact Except.noConfusion h
                | ok v5 =>
                  simp only [h5]
                  exact ⟨s5, rfl, rfl⟩

/-- Claim C2 (amended): after a successful `authenticate()` run the
access and refresh token are populated, the expiry equals the time of
the step-5 exchange plus the response's `expires_in` — strictly in the
future whenever that `expires_in` is positive (the code never checks it,
so a non-positive `expires_in` yields a non-future expiry) — and the
most recently spawned refresh-scheduler task is alive. -/
theorem authenticate_success_populates_tokens (cbs : Callbacks) (now : Int)
    (srv : ServerBehavior) (s : ClientState)
    (h : (authenticate cbs now srv s).result = .ok ()) :
    (authenticate cbs now srv s).state.accessToken.isSome = true ∧
    (authenticate cbs now srv s).state.refreshToken.isSome = true ∧
    (∃ st body ein, srv.step5Resp = .ok st body ∧ body.expiresIn = some ein ∧
      (authenticate cbs now srv s).state.tokenExpiry = some (now + ein) ∧
      (0 < ein → now < now + ein)) ∧
    (authenticate cbs now srv s).state.tasks.head? = some true := by
  have hrun : (authenticate_run cbs now srv s).result = .ok () ∧
      authenticate cbs now srv s = authenticate_run cbs now srv s := by
    simp only [authenticate] at h ⊢
    cases hr : (authenticate_run cbs now srv s).result with
    | ok v => refine ⟨?_, ?_⟩ <;> simp only [hr]
    | error e => simp only [hr] at h; exact Except.noConfusion h
  obtain ⟨hok, heq⟩ := hrun
  rw [heq]
  obtain ⟨s5, h5, hstate⟩ := authenticate_run_ok_shape cbs now srv s hok
  obtain ⟨st, body, a, r, ein, hresp, hba, hbr, hbe, ha5, hr5, he5, -⟩ :=
    step5_ok_shape now srv.step5Resp s s5 h5
  rw [hstate]
  refine ⟨?_, ?_, ⟨st, body, ein, hresp, hbe, ?_, ?_⟩, ?_⟩
  · simp [start_refresh_task, ha5]
  · simp [start_refresh_task, hr5]
  · simp [start_refresh_task, he5]
  · intro hpos; omega
  · simp [start_refresh_task]

theorem authenticate_success_populates_tokens_w :
    (authenticate cbs0 100 srvOkPos sFull).result = .ok () ∧
    ((authenticate cbs0 100 srvOkPos sFull).state.accessToken.isSome = true ∧
     (authenticate cbs0 100 srvOkPos sFull).state.refreshToken.isSome = true ∧
     (∃ st body ein, srvOkPos.step5Resp = .ok st body ∧ body.expiresIn = some ein ∧
       (authenticate cbs0 100 srvOkPos sFull).state.tokenExpiry = some (100 + ein) ∧
       (0 < ein → (100 : Int) < 100 + ein)) ∧
     (authenticate cbs0 100 srvOkPos sFull).state.tasks.head? = some true) :=
  ⟨by decide, authenticate_success_populates_tokens cbs0 100 srvOkPos sFull (by decide)⟩

lemma poll_tan_loop_benign (cr : Option Bool) (traise : Bool) (tanType : String)
    (responses : Nat → PollOutcome)
    (hb : ∀ n, benignPoll (responses n) = true) :
    ∀ fuel elapsed,
      (poll_tan_loop ⟨cr, some traise⟩ tanType responses fuel elapsed).result =
        .error (.tanTimeoutError "TAN approval timed out after 60 seconds") ∧
      (poll_tan_loop ⟨cr, some traise⟩ tanType responses fuel elapsed).events.countP
        (isTanEvent "timeout") = 1 ∧
      (poll_tan_loop ⟨cr, some traise⟩ tanType responses fuel elapsed).pollTimes.length
        = fuel ∧
      ∀ t ∈ (poll_tan_loop ⟨cr, some traise⟩ tanType responses fuel elapsed).pollTimes,
        elapsed + 1 ≤ t ∧ t ≤ elapsed + fuel := by
  have hpend : (("pending" : String) == "timeout") = false := by decide
  have htim : (("timeout" : String) == "timeout") = true := by decide
  intro fuel
  induction fuel with
  | zero =>
    intro elapsed
    refine ⟨rfl, ?_, rfl, by simp [poll_tan_loop]⟩
    simp [poll_tan_loop, invoke_tan_registered, isTanEvent, List.countP_cons, htim]
  | succ f ih =>
    intro elapsed
    have hben := hb (elapsed + 1)
    cases hresp : responses (elapsed + 1) with
    | timeout =>
      obtain ⟨hr, hc, hl, hm⟩ := ih (elapsed + 1)
      refine ⟨?_, ?_, ?_, ?_⟩ <;> simp only [poll_tan_loop, hresp]
      · exact hr
      · exact hc
      · simpa using hl
      · intro t ht
        simp only [List.mem_cons] at ht
        rcases ht with rfl | ht
        · omega
        · have := hm t ht; omega
    | resp sc js =>
      rw [hresp] at hben
      obtain ⟨hr, hc, hl, hm⟩ := ih (elapsed + 1)
      by_cases hsc : (sc == 200) = true
      · have hjs : js = .ok (some "PENDING") := by
          simpa [benignPoll, hsc] using hben
        subst hjs
        have hA : ((some "PENDING" : Option String) == some "AUTHENTICATED") = false := by
          decide
        have hP : ((some "PENDING" : Option String) == some "PENDING") = true := by
          decide
        have hevs : ∀ p : TanPayload,
            (invoke_tan_status_callback ⟨cr, some traise⟩ "pending" p).countP
              (isTanEvent "timeout") = 0 := by
          intro p
          simp [invoke_tan_registered, isTanEvent, List.countP_cons, hpend]
        refine ⟨?_, ?_, ?_, ?_⟩ <;>
          simp only [poll_tan_loop, hresp, hsc, if_true, hA, hP, Bool.false_eq_true,
            if_false]
        · exact hr
        · rw [List.countP_append, hc]
          cases hq : (elapsed + 1) % 10 == 0 && decide (0 < elapsed + 1) <;>
            simp [hevs]
        · simpa using hl
        · intro t ht
          simp only [List.mem_cons] at ht
          rcases ht with rfl | ht
          · omega
          · have := hm t ht; omega
      · refine ⟨?_, ?_, ?_, ?_⟩ <;>
          simp only [poll_tan_loop, hresp, hsc, Bool.false_eq_true, if_false]
        · exact hr
        · exact hc
        · simpa using hl
        · intro t ht
          simp only [List.mem_cons] at ht
          rcases ht with rfl | ht
          · omega
          · have := hm t ht; omega

lemma step4_timeout_benign (cr : Option Bool) (traise : Bool) (tanType : String)
    (responses : Nat → PollOutcome)
    (hb : ∀ n, benignPoll (responses n) = true) :
    (step4_poll_tan_approval ⟨cr, some traise⟩ tanType responses).result =
      .error (.tanTimeoutError "TAN approval timed out after 60 seconds") ∧
    (step4_poll_tan_approval ⟨cr, some traise⟩ tanType responses).events.countP
      (isTanEvent "timeout") = 1 ∧
    (step4_poll_tan_approval ⟨cr, some traise⟩ tanType responses).pollTimes.length = 60 ∧
    ∀ t ∈ (step4_poll_tan_approval ⟨cr, some traise⟩ tanType responses).pollTimes,
      1 ≤ t ∧ t ≤ 60 := by
  obtain ⟨hr, hc, hl, hm⟩ := poll_tan_loop_benign cr traise tanType responses hb 60 0
  have hpend : (("pending" : String) == "timeout") = false := by decide
  refine ⟨?_, ?_, ?_, ?_⟩ <;> simp only [step4_poll_tan_approval]
  · exact hr
  · rw [List.countP_append, hc]
    simp [invoke_tan_registered, isTanEvent, List.countP_cons, hpend]
  · exact hl
  · intro t ht
    have := hm t ht
    omega

/-- Claim C6 (amended): if every poll response within the 60-second
budget is benign — a transport timeout, a non-200 status, or 200 with
`PENDING`; i.e. the loop never sees `AUTHENTICATED` nor an
early-terminal outcome (an unexpected status raises AuthenticationError
instead, see the counterexample) — then step 4 emits exactly one
`tan_status="timeout"` notification, raises TANTimeoutError, issues
exactly 60 poll requests all at elapsed times within the budget (≤ 60 s)
and none after the error is raised, and the error propagates out of
`authenticate()`, clearing the Token Pair. -/
theorem tan_poll_timeout_budget (cr : Option Bool) (traise : Bool) (tanType : String)
    (responses : Nat → PollOutcome)
    (hb : ∀ n, benignPoll (responses n) = true) :
    (step4_poll_tan_approval ⟨cr, some traise⟩ tanType responses).result =
      .error (.tanTimeoutError "TAN approval timed out after 60 seconds") ∧
    (step4_poll_tan_approval ⟨cr, some traise⟩ tanType responses).events.countP
      (isTanEvent "timeout") = 1 ∧
    (step4_poll_tan_approval ⟨cr, some traise⟩ tanType responses).pollTimes.length = 60 ∧
    (∀ t ∈ (step4_poll_tan_approval ⟨cr, some traise⟩ tanType responses).pollTimes,
      1 ≤ t ∧ t ≤ 60) ∧
    (∀ (now : Int) (srv : ServerBehavior) (s : ClientState) (tok u cid typ href b3 : String),
      step1_password_credentials srv.step1Resp = .ok tok →
      step2_session_status srv.step2Resp = .ok u →
      srv.step3Resp = .ok ⟨some (.parsed cid typ href), b3⟩ →
      srv.pollResponses = responses →
      (authenticate ⟨cr, some traise⟩ now srv s).result =
        .error (.tanTimeoutError "TAN approval timed out after 60 seconds") ∧
      (authenticate ⟨cr, some traise⟩ now srv s).state.accessToken = none ∧
      (authenticate ⟨cr, some traise⟩ now srv s).state.refreshToken = none ∧
      (authenticate ⟨cr, some traise⟩ now srv s).state.tokenExpiry = none) := by
  obtain ⟨hr, hc, hl, hm⟩ := step4_timeout_benign cr traise tanType responses hb
  refine ⟨hr, hc, hl, hm, ?_⟩
  intro now srv s tok u cid typ href b3 h1 h2 h3 hpoll
  have hr4 := (step4_timeout_benign cr traise typ responses hb).1
  have h3v : step3_tan_challenge ⟨cr, some traise⟩ srv.step3Resp =
      (.ok (cid, typ, href),
        invoke_tan_status_callback ⟨cr, some traise⟩ "requested"
          { tanType := typ, challengeId := some cid, timeoutSeconds := some 60 }) := by
    rw [h3]; rfl
  have hrun : (authenticate_run ⟨cr, some traise⟩ now srv s).result =
        .error (.tanTimeoutError "TAN approval timed out after 60 seconds") ∧
      (authenticate_run ⟨cr, some traise⟩ now srv s).state = s := by
    simp only [authenticate_run, h1, h2, h3v, hpoll, hr4]
    exact ⟨by trivial, by trivial⟩
  have hfail : (authenticate ⟨cr, some traise⟩ now srv s).result =
        .error (.tanTimeoutError "TAN approval timed out after 60 seconds") ∧
      (authenticate ⟨cr, some traise⟩ now srv s).state =
        clear_tokens (authenticate_run ⟨cr, some traise⟩ now srv s).state := by
    simp only [authenticate, hrun.1]
    exact ⟨by trivial, by trivial⟩
  rw [hfail.2]
  exact ⟨hfail.1, rfl, rfl, rfl⟩

theorem tan_poll_timeout_budget_w :
    (∀ n, benignPoll (pollAllPending n) = true) ∧
    ((step4_poll_tan_approval cbs0 "P_TAN_PUSH" pollAllPending).result =
       .error (.tanTimeoutError "TAN approval timed out after 60 seconds") ∧
     (step4_poll_tan_approval cbs0 "P_TAN_PUSH" pollAllPending).events.countP
       (isTanEvent "timeout") = 1 ∧
     (step4_poll_tan_approval cbs0 "P_TAN_PUSH" pollAllPending).pollTimes.length = 60 ∧
     (∀ t ∈ (step4_poll_tan_approval cbs0 "P_TAN_PUSH" pollAllPending).pollTimes,
       1 ≤ t ∧ t ≤ 60) ∧
     (∀ (now : Int) (srv : ServerBehavior) (s : ClientState) (tok u cid typ href b3 : String),
       step1_password_credentials srv.step1Resp = .ok tok →
       step2_session_status srv.step2Resp = .ok u →
       srv.step3Resp = .ok ⟨some (.parsed cid typ href), b3⟩ →
       srv.pollResponses = pollAllPending →
       (authenticate cbs0 now srv s).result =
         .error (.tanTimeoutError "TAN approval timed out after 60 seconds") ∧
       (authenticate cbs0 now srv s).state.accessToken = none ∧
       (authenticate cbs0 now srv s).state.refreshToken = none ∧
       (authenticate cbs0 now srv s).state.tokenExpiry = none)) :=
  ⟨fun _ => rfl,
   tan_poll_timeout_budget (some false) false "P_TAN_PUSH" pollAllPending (fun _ => rfl)⟩

lemma invoke_tan_fun (x : Option Bool) (b : Bool) :
    invoke_tan_status_callback ⟨x, some b⟩ =
      fun st p => [Event.tanStatus st p] := by
  funext st p
  exact invoke_tan_registered x b st p

lemma invoke_reauth_fun (x : Option Bool) (b : Bool) :
    invoke_reauth_callback ⟨some b, x⟩ =
      fun reason s => (clear_tokens s, [Event.reauthRequired reason]) := by
  funext reason s
  exact invoke_reauth_registered x b reason s

lemma poll_loop_obs_irrel (r1 t1 r2 t2 : Bool) (tanType : String)
    (responses : Nat → PollOutcome) :
    ∀ fuel elapsed,
      poll_tan_loop ⟨some r1, some t1⟩ tanType responses fuel elapsed =
        poll_tan_loop ⟨some r2, some t2⟩ tanType responses fuel elapsed := by
  intro fuel
  induction fuel with
  | zero =>
    intro e
    simp only [poll_tan_loop, invoke_tan_fun]
  | succ f ih =>
    intro e
    simp only [poll_tan_loop, invoke_tan_fun, ih]

lemma step4_obs_irrel (r1 t1 r2 t2 : Bool) :
    ∀ (tanType : String) (responses : Nat → PollOutcome),
      step4_poll_tan_approval ⟨some r1, some t1⟩ tanType responses =
        step4_poll_tan_approval ⟨some r2, some t2⟩ tanType responses := by
  intro tanType responses
  simp only [step4_poll_tan_approval, invoke_tan_fun,
    poll_loop_obs_irrel r1 t1 r2 t2 tanType responses]

lemma step3_obs_irrel (r1 t1 r2 t2 : Bool) :
    ∀ resp : BravadoOutcome Step3Raw,
      step3_tan_challenge ⟨some r1, some t1⟩ resp =
        step3_tan_challenge ⟨some r2, some t2⟩ resp := by
  intro resp
  cases resp with
  | ok raw =>
    obtain ⟨hd, bd⟩ := raw
    cases hd with
    | none => rfl
    | some hp =>
      cases hp with
      | malformed => rfl
      | parsed i ty l => simp only [step3_tan_challenge, invoke_tan_fun]
  | httpError st => rfl
  | otherError m => rfl

lemma refresh_obs_irrel (r1 t1 r2 t2 : Bool) (now : Int)
    (resp : HttpOutcome TokenBody) (s : ClientState) :
    refresh_token ⟨some r1, some t1⟩ now resp s =
      refresh_token ⟨some r2, some t2⟩ now resp s := by
  simp only [refresh_token, invoke_reauth_fun]

lemma authenticate_obs_irrel (r1 t1 r2 t2 : Bool) (now : Int)
    (srv : ServerBehavior) (s : ClientState) :
    authenticate ⟨some r1, some t1⟩ now srv s =
      authenticate ⟨some r2, some t2⟩ now srv s := by
  simp only [authenticate, authenticate_run, step3_obs_irrel r1 t1 r2 t2,
    step4_obs_irrel r1 t1 r2 t2]

lemma loop_body_obs_irrel (r1 t1 r2 t2 : Bool) (now : Int)
    (resp : HttpOutcome TokenBody) (s : ClientState) :
    token_refresh_loop_body ⟨some r1, some t1⟩ now resp s =
      token_refresh_loop_body ⟨some r2, some t2⟩ now resp s := by
  simp only [token_refresh_loop_body, invoke_reauth_fun,
    refresh_obs_irrel r1 t1 r2 t2 now resp s]

/-- Claim C8: the result and final state of `authenticate()`,
`refresh_token()`, one refresh-scheduler loop iteration, and TAN polling
do not depend on whether the registered reauth or TAN-status observer
raises when invoked: the wrappers catch and swallow the observer's
exception, so a raising observer (`true` flags) produces exactly the
same outcome as a non-raising one (`false` flags). -/
theorem observer_failures_isolated (r1 t1 r2 t2 : Bool) (now : Int)
    (srv : ServerBehavior) (resp : HttpOutcome TokenBody) (s : ClientState)
    (tanType : String) (responses : Nat → PollOutcome) :
    authenticate ⟨some r1, some t1⟩ now srv s =
      authenticate ⟨some r2, some t2⟩ now srv s ∧
    refresh_token ⟨some r1, some t1⟩ now resp s =
      refresh_token ⟨some r2, some t2⟩ now resp s ∧
    token_refresh_loop_body ⟨some r1, some t1⟩ now resp s =
      token_refresh_loop_body ⟨some r2, some t2⟩ now resp s ∧
    step4_poll_tan_approval ⟨some r1, some t1⟩ tanType responses =
      step4_poll_tan_approval ⟨some r2, some t2⟩ tanType responses :=
  ⟨authenticate_obs_irrel r1 t1 r2 t2 now srv s,
   refresh_obs_irrel r1 t1 r2 t2 now resp s,
   loop_body_obs_irrel r1 t1 r2 t2 now resp s,
   step4_obs_irrel r1 t1 r2 t2 tanType responses⟩

/-- Claim C7: a step-3 TAN-challenge response without the
`x-once-authentication-info` header makes `authenticate()` fail with an
AuthenticationError regardless of the response body, and the challenge
id, TAN type and poll URL are a function of that header alone — two
responses with the same header (and any bodies) are handled
identically. -/
theorem step3_header_required_and_sole_source (cbs : Callbacks) (raw raw' : Step3Raw)
    (hh : raw.header = raw'.header) :
    (raw.header = none →
      (step3_tan_challenge cbs (.ok raw)).1 =
        .error (.authenticationError
          "TAN challenge creation failed: Missing x-once-authentication-info header")) ∧
    step3_tan_challenge cbs (.ok raw) = step3_tan_challenge cbs (.ok raw') ∧
    (∀ (now : Int) (srv : ServerBehavior) (s : ClientState) (tok u : String),
      step1_password_credentials srv.step1Resp = .ok tok →
      step2_session_status srv.step2Resp = .ok u →
      srv.step3Resp = .ok raw → raw.header = none →
      (authenticate cbs now srv s).result =
        .error (.authenticationError
          "TAN challenge creation failed: Missing x-once-authentication-info header")) := by
  obtain ⟨hd, bd⟩ := raw
  obtain ⟨hd', bd'⟩ := raw'
  have hh' : hd = hd' := hh
  subst hh'
  refine ⟨?_, ?_, ?_⟩
  · intro h0
    have h0' : hd = none := h0
    subst h0'
    rfl
  · cases hd with
    | none => rfl
    | some hp => cases hp <;> rfl
  · intro now srv s tok u h1 h2 h3 h0
    have h0' : hd = none := h0
    subst h0'
    have h3v : step3_tan_challenge cbs srv.step3Resp =
        (.error (.authenticationError
          "TAN challenge creation failed: Missing x-once-authentication-info header"),
         []) := by
      rw [h3]
      rfl
    simp only [authenticate, authenticate_run, h1, h2, h3v]

theorem step3_header_required_and_sole_source_w :
    rawNoHeader.header = rawNoHeaderAlt.header ∧
    ((rawNoHeader.header = none →
      (step3_tan_challenge cbs0 (.ok rawNoHeader)).1 =
        .error (.authenticationError
          "TAN challenge creation failed: Missing x-once-authentication-info header")) ∧
     step3_tan_challenge cbs0 (.ok rawNoHeader) =
       step3_tan_challenge cbs0 (.ok rawNoHeaderAlt) ∧
     (∀ (now : Int) (srv : ServerBehavior) (s : ClientState) (tok u : String),
       step1_password_credentials srv.step1Resp = .ok tok →
       step2_session_status srv.step2Resp = .ok u →
       srv.step3Resp = .ok rawNoHeader → rawNoHeader.header = none →
       (authenticate cbs0 now srv s).result =
         .error (.authenticationError
           "TAN challenge creation failed: Missing x-once-authentication-info header"))) :=
  ⟨rfl, step3_header_required_and_sole_source cbs0 rawNoHeader rawNoHeaderAlt rfl⟩

lemma not_mem_true_of_all_false (t : List Bool)
    (ht : (t.all fun b => b == false) = true) : true ∉ t := by
  intro hmem
  have := List.all_eq_true.mp ht true hmem
  simp at this

lemma count_true_of_all_false (l : List Bool)
    (h : l.all (fun b => b == false) = true) : l.count true = 0 := by
  induction l with
  | nil => rfl
  | cons a t ih =>
    simp only [List.all_cons, Bool.and_eq_true, beq_iff_eq] at h
    obtain ⟨ha, ht⟩ := h
    subst ha
    simp [List.count_cons, ih ht]

lemma onlyHeadAlive_count_le_one (l : List Bool) (h : onlyHeadAlive l = true) :
    l.count true ≤ 1 := by
  cases l with
  | nil => simp
  | cons a t =>
    have ht : t.count true = 0 :=
      count_true_of_all_false t (by simpa [onlyHeadAlive] using h)
    cases a <;> simp [List.count_cons, ht]

lemma clear_tokens_tasks_zero (s : ClientState) (h : onlyHeadAlive s.tasks = true) :
    aliveCount (clear_tokens s).tasks = 0 ∧
    onlyHeadAlive (clear_tokens s).tasks = true := by
  cases hl : s.tasks with
  | nil => simp [clear_tokens, hl, aliveCount, onlyHeadAlive]
  | cons a t =>
    have ht : t.all (fun b => b == false) = true := by
      simpa [onlyHeadAlive, hl] using h
    constructor
    · simp [clear_tokens, hl, aliveCount, List.count_cons,
        count_true_of_all_false t ht]
    · simp only [clear_tokens, hl, onlyHeadAlive]
      simp only [List.tail_cons]
      exact ht

lemma start_refresh_task_tasks (s : ClientState) (h : onlyHeadAlive s.tasks = true) :
    onlyHeadAlive (start_refresh_task s).tasks = true ∧
    aliveCount (start_refresh_task s).tasks = 1 ∧
    (start_refresh_task s).tasks.head? = some true := by
  cases hl : s.tasks with
  | nil => simp [start_refresh_task, hl, onlyHeadAlive, aliveCount]
  | cons a t =>
    have ht : t.all (fun b => b == false) = true := by
      simpa [onlyHeadAlive, hl] using h
    refine ⟨?_, ?_, ?_⟩
    · simp only [start_refresh_task, hl, onlyHeadAlive]
      simp only [List.tail_cons]
      exact ht
    · simp [start_refresh_task, hl, aliveCount, List.count_cons,
        count_true_of_all_false t ht]
    · simp [start_refresh_task]

lemma clear_tokens_tasks_congr (x y : ClientState) (h : x.tasks = y.tasks) :
    (clear_tokens x).tasks = (clear_tokens y).tasks := by
  simp [clear_tokens, h]

lemma invoke_reauth_fst (cbs : Callbacks) (reason : String) (s : ClientState) :
    (invoke_reauth_callback cbs reason s).1 = clear_tokens s := by
  unfold invoke_reauth_callback
  cases cbs.reauth with
  | none => rfl
  | some b => cases b <;> rfl

lemma save_tokens_tasks (s : ClientState) :
    (save_tokens_to_storage s).tasks = s.tasks := by
  unfold save_tokens_to_storage
  cases s.accessToken <;> cases s.refreshToken <;> cases s.tokenExpiry <;> rfl

lemma step5_tasks (now : Int) (resp : HttpOutcome TokenBody) (s : ClientState) :
    (step5_secondary_token now resp s).2.tasks = s.tasks := by
  cases resp with
  | timeout => rfl
  | ok st body =>
    by_cases h2 : is2xx st = true
    · cases ha : body.accessToken with
      | none => simp [step5_secondary_token, h2, ha]
      | some a =>
        cases hr : body.refreshToken with
        | none => simp [step5_secondary_token, h2, ha, hr]
        | some r =>
          cases he : body.expiresIn with
          | none => simp [step5_secondary_token, h2, ha, hr, he]
          | some ein =>
            simp [step5_secondary_token, h2, ha, hr, he, save_tokens_tasks]
    · simp [step5_secondary_token, h2]

lemma authenticate_run_tasks (cbs : Callbacks) (now : Int) (srv : ServerBehavior)
    (s : ClientState) :
    (∀ e, (authenticate_run cbs now srv s).result = .error e →
      (authenticate_run cbs now srv s).state.tasks = s.tasks) ∧
    ((authenticate_run cbs now srv s).result = .ok () →
      (authenticate_run cbs now srv s).state.tasks = (start_refresh_task s).tasks) := by
  simp only [authenticate_run]
  cases h1 : step1_password_credentials srv.step1Resp with
  | error e => exact ⟨fun _ _ => rfl, fun hk => Except.noConfusion hk⟩
  | ok tok =>
    cases h2 : step2_session_status srv.step2Resp with
    | error e => exact ⟨fun _ _ => rfl, fun hk => Except.noConfusion hk⟩
    | ok u =>
      cases h3 : step3_tan_challenge cbs srv.step3Resp with
      | mk res3 evs3 =>
        cases res3 with
        | error e => exact ⟨fun _ _ => rfl, fun hk => Except.noConfusion hk⟩
        | ok triple =>
          obtain ⟨cid, typ, purl⟩ := triple
          cases h4 : (step4_poll_tan_approval cbs typ srv.pollResponses).result with
          | error e =>
            simp only [h4]
            constructor
            · intros
              trivial
            · intro hk
              exact Except.noConfusion hk
          | ok v4 =>
            simp only [h4]
            cases h4b : step4b_activate_session srv.step4bResp with
            | error e => exact ⟨fun _ _ => rfl, fun hk => Except.noConfusion hk⟩
            | ok v4b =>
              cases h5 : step5_secondary_token now srv.step5Resp s with
              | mk res5 s5 =>
                have hs5 : s5.tasks = s.tasks := by
                  have := step5_tasks now srv.step5Resp s
                  rw [h5] at this
                  exact this
                cases res5 with
                | error e =>
                  exact ⟨fun _ _ => hs5, fun hk => Except.noConfusion hk⟩
                | ok v5 =>
                  refine ⟨fun e hk => Except.noConfusion hk, fun _ => ?_⟩
                  simp [start_refresh_task, hs5]

lemma refresh_token_tasks_cases (cbs : Callbacks) (now : Int)
    (resp : HttpOutcome TokenBody) (s : ClientState) :
    (refresh_token cbs now resp s).state.tasks = s.tasks ∨
    (refresh_token cbs now resp s).state.tasks = (clear_tokens s).tasks := by
  cases hrt : s.refreshToken with
  | none => left; simp [refresh_token, hrt]
  | some rt =>
    cases resp with
    | timeout => left; simp [refresh_token, hrt]
    | ok st body =>
      by_cases h401 : (st == 401) = true
      · right
        simp only [refresh_token, hrt, h401, if_true]
        cases hi : invoke_reauth_callback cbs "token_refresh_failed" s with
        | mk s' evs =>
          have hs' : s' = clear_tokens s := by
            have := invoke_reauth_fst cbs "token_refresh_failed" s
            rw [hi] at this
            exact this
          simp [hs']
      · by_cases h2 : is2xx st = true
        · cases ha : body.accessToken with
          | none => left; simp [refresh_token, hrt, h401, h2, ha]
          | some a =>
            cases hr : body.refreshToken with
            | none => left; simp [refresh_token, hrt, h401, h2, ha, hr]
            | some r =>
              cases he : body.expiresIn with
              | none => left; simp [refresh_token, hrt, h401, h2, ha, hr, he]
              | some ein =>
                left
                simp only [refresh_token, hrt, h401, h2, ha, hr, he,
                  Bool.false_eq_true, if_false, not_true_eq_false, if_true]
                rw [save_tokens_tasks]
        · left; simp [refresh_token, hrt, h401, h2]

lemma authenticate_error_tasks (cbs : Callbacks) (now : Int) (srv : ServerBehavior)
    (s : ClientState) (e : CdError)
    (h : (authenticate cbs now srv s).result = .error e) :
    (authenticate cbs now srv s).state.tasks = (clear_tokens s).tasks := by
  simp only [authenticate] at h ⊢
  cases hr : (authenticate_run cbs now srv s).result with
  | ok v => simp only [hr] at h; exact Except.noConfusion h
  | error e' =>
    simp only [hr]
    obtain ⟨herr, -⟩ := authenticate_run_tasks cbs now srv s
    exact clear_tokens_tasks_congr _ _ (herr e' hr)

lemma authenticate_ok_tasks (cbs : Callbacks) (now : Int) (srv : ServerBehavior)
    (s : ClientState) (h : (authenticate cbs now srv s).result = .ok ()) :
    (authenticate cbs now srv s).state.tasks = (start_refresh_task s).tasks := by
  simp only [authenticate] at h ⊢
  cases hr : (authenticate_run cbs now srv s).result with
  | ok v =>
    simp only [hr]
    obtain ⟨-, hok⟩ := authenticate_run_tasks cbs now srv s
    cases v
    exact hok hr
  | error e' => simp only [hr] at h; exact Except.noConfusion h

/-- Claim C10: starting from any state in which only the current (head)
refresh task may be alive, at most one scheduler task is alive;
`_start_refresh_task` cancels the previous task before spawning exactly
one new alive task; `_clear_tokens` empties the Token Pair and leaves no
alive task; `_invoke_reauth_callback` (every reauth notification) leaves
no alive task; a failed `authenticate()` leaves no alive task; and both
`authenticate()` and `refresh_token()` preserve the only-head-alive
discipline — so no scheduler task survives an empty Token Pair. -/
theorem scheduler_task_discipline (s : ClientState)
    (hwf : onlyHeadAlive s.tasks = true) :
    aliveCount s.tasks ≤ 1 ∧
    (onlyHeadAlive (start_refresh_task s).tasks = true ∧
     aliveCount (start_refresh_task s).tasks = 1 ∧
     (start_refresh_task s).tasks.head? = some true) ∧
    (aliveCount (clear_tokens s).tasks = 0 ∧
     (clear_tokens s).accessToken = none ∧ (clear_tokens s).refreshToken = none ∧
     (clear_tokens s).tokenExpiry = none) ∧
    (∀ (cbs : Callbacks) (reason : String),
      aliveCount (invoke_reauth_callback cbs reason s).1.tasks = 0) ∧
    (∀ (cbs : Callbacks) (now : Int) (srv : ServerBehavior) (e : CdError),
      (authenticate cbs now srv s).result = .error e →
      aliveCount (authenticate cbs now srv s).state.tasks = 0) ∧
    (∀ (cbs : Callbacks) (now : Int) (srv : ServerBehavior),
      onlyHeadAlive (authenticate cbs now srv s).state.tasks = true) ∧
    (∀ (cbs : Callbacks) (now : Int) (resp : HttpOutcome TokenBody),
      onlyHeadAlive (refresh_token cbs now resp s).state.tasks = true) := by
  obtain ⟨hclr0, hclrW⟩ := clear_tokens_tasks_zero s hwf
  obtain ⟨hstW, hst1, hsthd⟩ := start_refresh_task_tasks s hwf
  refine ⟨onlyHeadAlive_count_le_one s.tasks hwf, ⟨hstW, hst1, hsthd⟩,
    ⟨hclr0, rfl, rfl, rfl⟩, ?_, ?_, ?_, ?_⟩
  · intro cbs reason
    rw [invoke_reauth_fst]
    exact hclr0
  · intro cbs now srv e he
    rw [authenticate_error_tasks cbs now srv s e he]
    exact hclr0
  · intro cbs now srv
    cases hres : (authenticate cbs now srv s).result with
    | error e =>
      rw [authenticate_error_tasks cbs now srv s e hres]
      exact hclrW
    | ok v =>
      cases v
      rw [authenticate_ok_tasks cbs now srv s hres]
      exact hstW
  · intro cbs now resp
    rcases refresh_token_tasks_cases cbs now resp s with hcase | hcase
    · rw [hcase]; exact hwf
    · rw [hcase]; exact hclrW

theorem scheduler_task_discipline_w :
    onlyHeadAlive sFull.tasks = true ∧
    (aliveCount sFull.tasks ≤ 1 ∧
     (onlyHeadAlive (start_refresh_task sFull).tasks = true ∧
      aliveCount (start_refresh_task sFull).tasks = 1 ∧
      (start_refresh_task sFull).tasks.head? = some true) ∧
     (aliveCount (clear_tokens sFull).tasks = 0 ∧
      (clear_tokens sFull).accessToken = none ∧
      (clear_tokens sFull).refreshToken = none ∧
      (clear_tokens sFull).tokenExpiry = none) ∧
     (∀ (cbs : Callbacks) (reason : String),
       aliveCount (invoke_reauth_callback cbs reason sFull).1.tasks = 0) ∧
     (∀ (cbs : Callbacks) (now : Int) (srv : ServerBehavior) (e : CdError),
       (authenticate cbs now srv sFull).result = .error e →
       aliveCount (authenticate cbs now srv sFull).state.tasks = 0) ∧
     (∀ (cbs : Callbacks) (now : Int) (srv : ServerBehavior),
       onlyHeadAlive (authenticate cbs now srv sFull).state.tasks = true) ∧
     (∀ (cbs : Callbacks) (now : Int) (resp : HttpOutcome TokenBody),
       onlyHeadAlive (refresh_token cbs now resp sFull).state.tasks = true)) :=
  ⟨rfl, scheduler_task_discipline sFull rfl⟩
